import Mathlib

set_option maxHeartbeats 1000000

/-!
Shallow embedding of the go-docker-deploy service (src/main.go): a
single-endpoint HTTP service that validates a deploy request, pulls a
container image from a private registry and (re)creates a named container.
Go strings are modelled as Lean strings (lists of characters, adequate for
the ASCII data handled here); machine integers as Int with explicit
two-complement wrapping at 64 bits; calls against the external container
engine as an explicit trace, with the engine results supplied by an
environment record.
-/

deriving instance DecidableEq for Except

namespace GoDockerDeploy

/-- Configured private registry host (src/main.go line 47). -/
def privateDockerRegistry : String := "d.puneet.cc"

/-- Go strings.HasPrefix, on the character lists of the two strings so
that it evaluates by kernel reduction. -/
def strStartsWith (s pre : String) : Bool := pre.toList.isPrefixOf s.toList

/-- Value of a list of decimal digits, most significant first. -/
def digitsVal (ds : List Char) : Nat :=
  ds.foldl (fun a c => a * 10 + (c.toNat - 48)) 0

def int64Max : Int := 2 ^ 63 - 1

def int64Min : Int := -(2 ^ 63)

/-- Two-complement wrapping of an integer into the int64 range, as Go
arithmetic on int64 does on overflow. -/
def wrap64 (n : Int) : Int := (n - int64Min) % 2 ^ 64 + int64Min

/-- Go strconv.ParseInt(s, 10, 64): an optional sign followed by decimal
digits; empty input, stray characters, or a value outside the int64 range
yield an error (the Go error message text). -/
def goParseInt64 (cs : List Char) : Except String Int :=
  match cs with
  | [] => .error ("strconv.ParseInt: parsing \"" ++ String.mk cs ++ "\": invalid syntax")
  | c :: rest =>
    let ds := if c = '-' ∨ c = '+' then rest else c :: rest
    if ds = [] ∨ ¬ ds.all Char.isDigit then
      .error ("strconv.ParseInt: parsing \"" ++ String.mk cs ++ "\": invalid syntax")
    else
      let v : Int := if c = '-' then -(digitsVal ds : Int) else (digitsVal ds : Int)
      if v < int64Min ∨ int64Max < v then
        .error ("strconv.ParseInt: parsing \"" ++ String.mk cs ++ "\": value out of range")
      else .ok v

/-- Result of convertToBytes: a value, a returned error, or a runtime
panic (slice index out of range). -/
inductive ConvResult where
  | ok (n : Int)
  | err (msg : String)
  | panics
  deriving DecidableEq, Repr

/-- The unit table of convertToBytes (src/main.go lines 51-56): every key
has exactly two characters. -/
def unitsLookup (u : List Char) : Option Int :=
  if u = ['K', 'B'] then some 1024
  else if u = ['M', 'B'] then some (1024 * 1024)
  else if u = ['G', 'B'] then some (1024 * 1024 * 1024)
  else if u = ['T', 'B'] then some (1024 * 1024 * 1024 * 1024)
  else none

/-- Core of convertToBytes (src/main.go lines 50-72) on the character list
of the input. The input is uppercased, the last two characters are sliced
unconditionally (a runtime panic when the input has fewer than two
characters, mirroring val[len(val)-2:]); if they are not a known unit the
last single character is tried instead, trimming one character off the
value as the source does; the numeric prefix is parsed with ParseInt and
multiplied by the unit multiplier in int64 arithmetic. -/
def convCore (cs0 : List Char) : ConvResult :=
  let cs := cs0.map Char.toUpper
  if cs.length < 2 then .panics
  else
    match unitsLookup (cs.drop (cs.length - 2)) with
    | some mult =>
      match goParseInt64 (cs.take (cs.length - 2)) with
      | .error e => .err e
      | .ok n => .ok (wrap64 (n * mult))
    | none =>
      match unitsLookup (cs.drop (cs.length - 1)) with
      | none => .err ("Invalid unit: " ++ String.mk (cs.drop (cs.length - 1)))
      | some mult =>
        let val2 := cs.take (cs.length - 1)
        match goParseInt64 (val2.take (val2.length - 1)) with
        | .error e => .err e
        | .ok n => .ok (wrap64 (n * mult))

/-- convertToBytes (src/main.go lines 50-72). -/
def convertToBytes (val : String) : ConvResult := convCore val.toList

/-- A portBindings entry of the request body (src/main.go lines 26-29). -/
structure DockerPortBindingRequest where
  container : String
  host : String
  deriving DecidableEq, Repr

/-- A volumeBindings entry of the request body (src/main.go lines 31-34). -/
structure DockerVolumeBindingRequest where
  source : String
  target : String
  deriving DecidableEq, Repr

/-- The deploy request body (src/main.go lines 36-45). -/
structure DockerRequest where
  containerName : String
  customCommand : List String
  image : String
  portBindings : List DockerPortBindingRequest
  volumeBindings : List DockerVolumeBindingRequest
  environment : List String
  memory : String
  cpuShares : String
  deriving DecidableEq, Repr

structure RestartPolicy where
  name : String
  deriving DecidableEq, Repr

structure Resources where
  memory : Int
  cpuShares : Int
  deriving DecidableEq, Repr

/-- A mount.Mount entry; the type field is the mount type ("bind"). -/
structure MountEntry where
  type : String
  source : String
  target : String
  deriving DecidableEq, Repr

/-- A nat.PortBinding value. -/
structure NatPortBinding where
  hostIP : String
  hostPort : String
  deriving DecidableEq, Repr

/-- container.HostConfig, restricted to the fields the source sets. The Go
map from nat.Port to bindings is modelled as an association list with
Go-map update semantics (assocUpdate below); only lookups are observed. -/
structure HostConfig where
  restartPolicy : RestartPolicy
  resources : Resources
  mounts : List MountEntry
  portBindings : List (String × List NatPortBinding)
  deriving DecidableEq, Repr

/-- container.Config, restricted to the fields the source sets. The
exposed-port set is modelled as a duplicate-free list; only membership is
observed. -/
structure ContainerConfig where
  image : String
  cmd : List String
  env : List String
  exposedPorts : List String
  deriving DecidableEq, Repr

/-- Lookup in the association list modelling a Go map. -/
def assocLookup (k : String) (m : List (String × List NatPortBinding)) :
    Option (List NatPortBinding) :=
  match m with
  | [] => none
  | kv :: t => if kv.1 = k then some kv.2 else assocLookup k t

/-- Go map update m[k] = v on an association list: replace the entry of
key k when present, append it otherwise. -/
def assocUpdate (m : List (String × List NatPortBinding)) (k : String)
    (v : List NatPortBinding) : List (String × List NatPortBinding) :=
  if m.any (fun kv => kv.1 = k) then
    m.map (fun kv => if kv.1 = k then (k, v) else kv)
  else
    m ++ [(k, v)]

/-- The hostConfig.PortBindings loop (src/main.go lines 158-163): each
binding writes the singleton list with host IP 0.0.0.0 under its container
port. -/
def buildPortBindings (l : List DockerPortBindingRequest) :
    List (String × List NatPortBinding) :=
  l.foldl (fun m p => assocUpdate m p.container [{ hostIP := "0.0.0.0", hostPort := p.host }]) []

/-- Go set insertion for the exposed-port set. -/
def setInsert (s : List String) (k : String) : List String :=
  if k ∈ s then s else s ++ [k]

/-- The containerConfig.ExposedPorts loop (src/main.go lines 178-181). -/
def buildExposedPorts (l : List DockerPortBindingRequest) : List String :=
  l.foldl (fun s p => setInsert s p.container) []

/-- The hostConfig.Mounts loop (src/main.go lines 146-153). -/
def buildMounts (l : List DockerVolumeBindingRequest) : List MountEntry :=
  l.map (fun v => { type := "bind", source := v.source, target := v.target })

/-- Host-level configuration built at src/main.go lines 115-164, given the
parsed memory and cpu-share values (none when the field was empty; the Go
zero value 0 stands in then). -/
def buildHostConfig (request : DockerRequest) (mem cpu : Option Int) : HostConfig :=
  { restartPolicy := { name := "always" }
    resources := { memory := mem.getD 0, cpuShares := cpu.getD 0 }
    mounts :=
      if 0 < request.volumeBindings.length then buildMounts request.volumeBindings else []
    portBindings :=
      if 0 < request.portBindings.length then buildPortBindings request.portBindings else [] }

/-- Container-level configuration built at src/main.go lines 166-182. -/
def buildContainerConfig (request : DockerRequest) : ContainerConfig :=
  { image := request.image
    cmd := if 0 < request.customCommand.length then request.customCommand else []
    env := if 0 < request.environment.length then request.environment else []
    exposedPorts :=
      if 0 < request.portBindings.length then buildExposedPorts request.portBindings else [] }

/-- Result of the resource-parsing block (src/main.go lines 122-142): the
parsed optional values, a returned error together with its log line, or a
panic escaping from convertToBytes. -/
inductive ResourceParse where
  | ok (mem cpu : Option Int)
  | err (log msg : String)
  | panics
  deriving DecidableEq, Repr

/-- The cpuShares branch (src/main.go lines 135-142). -/
def parseCPUShares (mem : Option Int) (cpuShares : String) : ResourceParse :=
  if cpuShares = "" then .ok mem none
  else match goParseInt64 cpuShares.toList with
    | .error e => .err ("[startContainer][CPUShares-Parsing][ERROR] : " ++ e) e
    | .ok n => .ok mem (some n)

/-- The memory branch (src/main.go lines 126-133) followed by the
cpuShares branch. -/
def parseResources (memory cpuShares : String) : ResourceParse :=
  if memory = "" then parseCPUShares none cpuShares
  else match convertToBytes memory with
    | .panics => .panics
    | .err e => .err ("[startContainer][Memory-Parsing][ERROR] : " ++ e) e
    | .ok n => parseCPUShares (some n) cpuShares

/-- One call against the container engine, in the order issued. The pull
call carries the credentials that were passed as registry auth (the JSON
plus base64 encoding of src/main.go lines 87-88 is injective plumbing and
not modelled). -/
inductive EngineCall where
  | pull (image : String) (registryAuth : String)
  | inspect (name : String)
  | stop (name : String)
  | remove (name : String)
  | create (name : String) (config : ContainerConfig) (host : HostConfig)
  | start (id : String)
  deriving DecidableEq, Repr

/-- Results the external world returns to each call site. getAuthConfig
is the pair returned by cfg.GetAuthConfig (src/main.go line 85): the
credentials and an optional lookup error; the source discards the error
component. inspectSucceeds tells whether ContainerInspect returns without
error, i.e. the container exists. -/
structure EngineEnv where
  configLoadErr : Option String
  getAuthConfig : String × Option String
  pullResult : Except String Unit
  inspectSucceeds : Bool
  stopResult : Except String Unit
  removeResult : Except String Unit
  createResult : Except String String
  startResult : Except String Unit
  deriving DecidableEq, Repr

inductive DeployOutcome where
  | ok
  | fail (msg : String)
  | panics
  deriving DecidableEq, Repr

/-- Observable behaviour of one startContainer run: its return value, the
engine calls issued in order, and the log lines printed. -/
structure DeployResult where
  outcome : DeployOutcome
  calls : List EngineCall
  logs : List String
  deriving DecidableEq, Repr

/-- startContainer (src/main.go lines 74-197). -/
def startContainer (env : EngineEnv) (request : DockerRequest) : DeployResult :=
  if ¬ strStartsWith request.image privateDockerRegistry then
    { outcome := .fail ("only " ++ privateDockerRegistry ++ " images supported")
      calls := [], logs := [] }
  else match env.configLoadErr with
  | some _ => { outcome := .fail "config load failed", calls := [], logs := [] }
  | none =>
    let conf := env.getAuthConfig.1
    match env.pullResult with
    | .error e => { outcome := .fail e, calls := [.pull request.image conf], logs := [] }
    | .ok _ =>
      let calls1 : List EngineCall :=
        [.pull request.image conf, .inspect request.containerName] ++
          (if env.inspectSucceeds then
            [.stop request.containerName, .remove request.containerName]
          else [])
      let cleanupLogs : List String :=
        if env.inspectSucceeds then
          (match env.stopResult with
           | .error e => ["[startContainer][ContainerStop][ERROR] : " ++ e]
           | .ok _ => []) ++
          (match env.removeResult with
           | .error e => ["[startContainer][ContainerRemove][ERROR] : " ++ e]
           | .ok _ => [])
        else []
      match parseResources request.memory request.cpuShares with
      | .panics => { outcome := .panics, calls := calls1, logs := cleanupLogs }
      | .err l e => { outcome := .fail e, calls := calls1, logs := cleanupLogs ++ [l] }
      | .ok mem cpu =>
        let calls2 := calls1 ++
          [.create request.containerName (buildContainerConfig request)
            (buildHostConfig request mem cpu)]
        match env.createResult with
        | .error e =>
          { outcome := .fail e, calls := calls2
            logs := cleanupLogs ++ ["[startContainer][ContainerCreate][ERROR] : " ++ e] }
        | .ok cid =>
          match env.startResult with
          | .error e =>
            { outcome := .fail e, calls := calls2 ++ [.start cid], logs := cleanupLogs }
          | .ok _ =>
            { outcome := .ok, calls := calls2 ++ [.start cid], logs := cleanupLogs }

structure HttpResponse where
  status : Nat
  errorCode : Nat
  message : String
  deriving DecidableEq, Repr

/-- The POST / handler (src/main.go lines 208-221): body is the request
body after JSON decoding (error when decoding failed). A panicking deploy
produces no response, hence the Option. -/
def postHandler (env : EngineEnv) (body : Except String DockerRequest) :
    Option HttpResponse :=
  match body with
  | .error e => some { status := 500, errorCode := 1, message := e }
  | .ok request =>
    match (startContainer env request).outcome with
    | .fail e => some { status := 500, errorCode := 1, message := e }
    | .ok => some { status := 200, errorCode := 0, message := "Container Started" }
    | .panics => none

/-- Engine environment in which every call succeeds. -/
def envAllOk : EngineEnv :=
  { configLoadErr := none
    getAuthConfig := ("registry-credentials", none)
    pullResult := .ok ()
    inspectSucceeds := false
    stopResult := .ok ()
    removeResult := .ok ()
    createResult := .ok "cid-1"
    startResult := .ok () }

/-- The end-to-end example request of the specification. -/
def reqSvc1 : DockerRequest :=
  { containerName := "svc1"
    customCommand := []
    image := "d.puneet.cc/app:latest"
    portBindings := [{ container := "80/tcp", host := "8080" }]
    volumeBindings := []
    environment := []
    memory := ""
    cpuShares := "" }

/-!
Second variant of the service (src/unnamed/part_000): same endpoint and
provisioning sequence, but no credential handling, no custom command and
no resource fields, and the host-level configuration is the zero-value
HostConfig with only mounts and port bindings filled in.
-/

/-- The deploy request body of the second variant (src/unnamed/part_000
lines 31-37). -/
structure DockerRequestV0 where
  containerName : String
  image : String
  portBindings : List DockerPortBindingRequest
  volumeBindings : List DockerVolumeBindingRequest
  environment : List String
  deriving DecidableEq, Repr

/-- Engine results for the second variant: no credential store is
consulted. -/
structure EngineEnvV0 where
  pullResult : Except String Unit
  inspectSucceeds : Bool
  stopResult : Except String Unit
  removeResult : Except String Unit
  createResult : Except String String
  startResult : Except String Unit
  deriving DecidableEq, Repr

/-- Host-level configuration built at src/unnamed/part_000 lines 69-91:
container.HostConfig starts as the zero value and only Mounts and
PortBindings are assigned; in particular no restart policy is ever set,
so the RestartPolicy field keeps the zero value (empty name). -/
def buildHostConfigV0 (request : DockerRequestV0) : HostConfig :=
  { restartPolicy := { name := "" }
    resources := { memory := 0, cpuShares := 0 }
    mounts :=
      if 0 < request.volumeBindings.length then buildMounts request.volumeBindings else []
    portBindings :=
      if 0 < request.portBindings.length then buildPortBindings request.portBindings else [] }

/-- Container-level configuration built at src/unnamed/part_000 lines
93-105: image, optional environment, exposed ports; this variant has no
command override. -/
def buildContainerConfigV0 (request : DockerRequestV0) : ContainerConfig :=
  { image := request.image
    cmd := []
    env := if 0 < request.environment.length then request.environment else []
    exposedPorts :=
      if 0 < request.portBindings.length then buildExposedPorts request.portBindings else [] }

/-- startContainer of the second variant (src/unnamed/part_000 lines
41-120): the registry host is the literal "d.puneet.cc", the pull carries
no registry auth (modelled as empty credentials), cleanup failures are
only logged, and the create call receives the V0 configurations. -/
def startContainerV0 (env : EngineEnvV0) (request : DockerRequestV0) : DeployResult :=
  if ¬ strStartsWith request.image "d.puneet.cc" then
    { outcome := .fail "only d.puneet.cc images supported", calls := [], logs := [] }
  else match env.pullResult with
  | .error e => { outcome := .fail e, calls := [.pull request.image ""], logs := [] }
  | .ok _ =>
    let calls1 : List EngineCall :=
      [.pull request.image "", .inspect request.containerName] ++
        (if env.inspectSucceeds then
          [.stop request.containerName, .remove request.containerName]
        else [])
    let cleanupLogs : List String :=
      if env.inspectSucceeds then
        (match env.stopResult with
         | .error e => ["[startContainer][ContainerStop][ERROR] : " ++ e]
         | .ok _ => []) ++
        (match env.removeResult with
         | .error e => ["[startContainer][ContainerRemove][ERROR] : " ++ e]
         | .ok _ => [])
      else []
    let calls2 := calls1 ++
      [.create request.containerName (buildContainerConfigV0 request)
        (buildHostConfigV0 request)]
    match env.createResult with
    | .error e =>
      { outcome := .fail e, calls := calls2
        logs := cleanupLogs ++ ["[startContainer][ContainerCreate][ERROR] : " ++ e] }
    | .ok cid =>
      match env.startResult with
      | .error e =>
        { outcome := .fail e, calls := calls2 ++ [.start cid], logs := cleanupLogs }
      | .ok _ =>
        { outcome := .ok, calls := calls2 ++ [.start cid], logs := cleanupLogs }

/-- Engine environment for the second variant in which every call
succeeds. -/
def envAllOkV0 : EngineEnvV0 :=
  { pullResult := .ok ()
    inspectSucceeds := false
    stopResult := .ok ()
    removeResult := .ok ()
    createResult := .ok "cid-1"
    startResult := .ok () }

/-- The end-to-end example request for the second variant. -/
def reqSvc1V0 : DockerRequestV0 :=
  { containerName := "svc1"
    image := "d.puneet.cc/app:latest"
    portBindings := [{ container := "80/tcp", host := "8080" }]
    volumeBindings := []
    environment := [] }

/-! Claim theorems. -/

/-- C1: for every deploy request whose image reference does not start with
the configured private-registry host d.puneet.cc, startContainer returns
the authorization-style error "only d.puneet.cc images supported" and no
container-engine call (pull, inspect, stop, remove, create, start) is
made. -/
theorem deploy_rejects_foreign_registry (env : EngineEnv) (request : DockerRequest)
    (h : strStartsWith request.image privateDockerRegistry = false) :
    startContainer env request =
      { outcome := .fail ("only " ++ privateDockerRegistry ++ " images supported")
        calls := [], logs := [] } := by
  simp [startContainer, h]

/-- Witness for C1 at the image of the end-to-end failure example of the
specification. -/
theorem deploy_rejects_foreign_registry_witness :
    startContainer envAllOk { reqSvc1 with image := "docker.io/app:latest" } =
      { outcome := .fail ("only " ++ privateDockerRegistry ++ " images supported")
        calls := [], logs := [] } :=
  deploy_rejects_foreign_registry envAllOk _ (by decide)

/-- C6: the POST / endpoint answers a malformed body with HTTP 500 and
body error 1 carrying the decode error, a deploy failure with HTTP 500 and
body error 1 carrying the underlying message, and a successful deploy with
HTTP 200 and body error 0, message "Container Started". -/
theorem post_endpoint_responses (env : EngineEnv) (body : Except String DockerRequest) :
    (∀ e, body = .error e →
        postHandler env body = some { status := 500, errorCode := 1, message := e }) ∧
    (∀ request, body = .ok request →
        ((startContainer env request).outcome = .ok →
            postHandler env body =
              some { status := 200, errorCode := 0, message := "Container Started" }) ∧
        (∀ e, (startContainer env request).outcome = .fail e →
            postHandler env body =
              some { status := 500, errorCode := 1, message := e })) := by
  refine ⟨?_, ?_⟩
  · rintro e rfl
    rfl
  · rintro request rfl
    refine ⟨?_, ?_⟩
    · intro h
      simp [postHandler, h]
    · intro e h
      simp [postHandler, h]

/-- Witness for C6: the successful end-to-end example request and, for the
failure side, the foreign-registry request. -/
theorem post_endpoint_responses_witness :
    postHandler envAllOk (.ok reqSvc1) =
      some { status := 200, errorCode := 0, message := "Container Started" } :=
  ((post_endpoint_responses envAllOk (.ok reqSvc1)).2 reqSvc1 rfl).1 (by decide)

/-- Environment in which the credential lookup for the registry host
reports an error; everything else succeeds. -/
def envAuthLookupFails : EngineEnv :=
  { envAllOk with getAuthConfig := ("", some "credential lookup failed") }

/-- C9 counterexample: a failed credential lookup (the error component of
GetAuthConfig, discarded at src/main.go line 85) is not fatal: the pull is
still attempted with the empty credentials and the deploy even succeeds. -/
theorem credential_lookup_failure_not_fatal :
    (envAuthLookupFails.getAuthConfig.2 = some "credential lookup failed") ∧
    EngineCall.pull "d.puneet.cc/app:latest" "" ∈
      (startContainer envAuthLookupFails reqSvc1).calls ∧
    (startContainer envAuthLookupFails reqSvc1).outcome = .ok := by
  decide

/-- C9 (amended): only the failure of loading the credential store is
fatal: it aborts the deploy with "config load failed" before any engine
call, in particular before the pull; the lookup error returned by
GetAuthConfig is discarded and has no effect on the run at all. -/
theorem config_load_failure_fatal (env : EngineEnv) (request : DockerRequest) :
    (∀ e, strStartsWith request.image privateDockerRegistry = true →
        env.configLoadErr = some e →
        startContainer env request =
          { outcome := .fail "config load failed", calls := [], logs := [] }) ∧
    (∀ o, startContainer { env with getAuthConfig := (env.getAuthConfig.1, o) } request =
        startContainer env request) := by
  refine ⟨?_, ?_⟩
  · intro e himg hcfg
    simp [startContainer, himg, hcfg]
  · intro o
    cases env
    rfl

/-- Witness for C9 (amended): a concrete environment whose credential
store fails to load. -/
theorem config_load_failure_fatal_witness :
    startContainer { envAllOk with configLoadErr := some "permission denied" } reqSvc1 =
      { outcome := .fail "config load failed", calls := [], logs := [] } :=
  (config_load_failure_fatal { envAllOk with configLoadErr := some "permission denied" }
    reqSvc1).1 "permission denied" (by decide) rfl

/-- C10: convertToBytes slices the last two characters of its input
unconditionally, so every memory string of length one makes the slice
index out of range, a runtime panic rather than a parse error; and
startContainer invokes this parse whenever the memory field is non-empty,
so a deploy that reaches the memory step with such a string panics instead
of failing. -/
theorem memory_length_one_panics (env : EngineEnv) (request : DockerRequest)
    (himg : strStartsWith request.image privateDockerRegistry = true)
    (hcfg : env.configLoadErr = none)
    (hpull : env.pullResult = .ok ())
    (hmem : request.memory.toList.length = 1) :
    convertToBytes request.memory = .panics ∧
    (startContainer env request).outcome = .panics := by
  have hlen : request.memory.length = 1 := hmem
  have hconv : convertToBytes request.memory = .panics := by
    simp [convertToBytes, convCore, hlen]
  have hne : request.memory ≠ "" := by
    intro h
    rw [h] at hmem
    simp at hmem
  have hpr : parseResources request.memory request.cpuShares = .panics := by
    rw [parseResources, if_neg hne, hconv]
  refine ⟨hconv, ?_⟩
  simp [startContainer, himg, hcfg, hpull, hpr]

/-- Witness for C10 at the memory string "5". -/
theorem memory_length_one_panics_witness :
    convertToBytes ({ reqSvc1 with memory := "5" } : DockerRequest).memory = .panics ∧
    (startContainer envAllOk { reqSvc1 with memory := "5" }).outcome = .panics :=
  memory_length_one_panics envAllOk { reqSvc1 with memory := "5" }
    (by decide) rfl rfl (by decide)

/-- Every one-character string misses the unit table of convertToBytes:
all its keys have two characters. -/
theorem unitsLookup_length_one (u : List Char) (h : u.length = 1) :
    unitsLookup u = none := by
  cases u with
  | nil => simp at h
  | cons a t =>
    cases t with
    | nil => simp [unitsLookup]
    | cons b t2 => simp at h

/-- C4 counterexample: "10K" does not parse via the single-letter
fallback; it yields the Invalid-unit parse error. -/
theorem singleLetter_unit_parse_cex :
    convertToBytes "10K" = .err "Invalid unit: K" := by decide

/-- C4 (amended): when the trailing 2-character suffix of the uppercased
input is not a recognized unit, the trailing 1-character suffix is tried
instead; but every recognized unit has two characters, so this fallback
never succeeds and convertToBytes returns the Invalid-unit parse error
naming that final character (e.g. "10K" fails with "Invalid unit: K"). -/
theorem singleLetterFallback_always_errs (s : String)
    (h2 : 2 ≤ s.toList.length)
    (hu : unitsLookup ((s.toList.map Char.toUpper).drop (s.toList.length - 2)) = none) :
    convertToBytes s =
      .err ("Invalid unit: " ++
        String.mk ((s.toList.map Char.toUpper).drop (s.toList.length - 1))) := by
  have hlm : (s.toList.map Char.toUpper).length = s.toList.length := List.length_map _ _
  have hlt : ¬ (s.toList.map Char.toUpper).length < 2 := by omega
  have h1 : unitsLookup ((s.toList.map Char.toUpper).drop (s.toList.length - 1)) = none := by
    apply unitsLookup_length_one
    rw [List.length_drop, hlm]
    omega
  simp only [convertToBytes, convCore, hlm, hu, h1]
  rw [if_neg (by omega : ¬ s.toList.length < 2)]

/-- Witness for C4 (amended) at the input "7X". -/
theorem singleLetterFallback_always_errs_witness :
    convertToBytes "7X" = .err "Invalid unit: X" :=
  singleLetterFallback_always_errs "7X" (by decide) (by decide)

/-- wrap64 is the identity on the int64 range. -/
theorem wrap64_eq_of_range (n : Int) (hlo : int64Min ≤ n) (hhi : n ≤ int64Max) :
    wrap64 n = n := by
  have e63 : (2 : Int) ^ 63 = 9223372036854775808 := by norm_num
  have e64 : (2 : Int) ^ 64 = 18446744073709551616 := by norm_num
  simp only [wrap64, int64Min, int64Max, e63, e64] at hlo hhi ⊢
  rw [Int.emod_eq_of_lt (by omega) (by omega)]
  omega

/-- C3: convertToBytes parses a memory string made of a base-10 integer
prefix and a trailing recognized 2-letter unit as the prefix value times
the power-of-1024 multiplier of the unit (KB 1024, MB 1024 squared, GB
1024 cubed, TB 1024 to the fourth), as long as the product stays in the
int64 range; in particular "512MB" gives 512 * 1024 * 1024 and "2GB"
gives 2 * 1024 * 1024 * 1024 (see the witness). -/
theorem convertToBytes_unit_multiplier (s : String) (ds u : List Char) (mult n : Int)
    (hs : s.toList = ds ++ u)
    (hupper : (ds ++ u).map Char.toUpper = ds ++ u)
    (hu : unitsLookup u = some mult)
    (hlen : u.length = 2)
    (hn : goParseInt64 ds = .ok n)
    (hlo : int64Min ≤ n * mult)
    (hhi : n * mult ≤ int64Max) :
    convertToBytes s = .ok (n * mult) := by
  have hlapp : (ds ++ u).length = ds.length + 2 := by simp [hlen]
  have hidx : (ds ++ u).length - 2 = ds.length := by omega
  have hnotlt : ¬ (ds ++ u).length < 2 := by omega
  simp only [convertToBytes, hs, convCore, hupper, hidx, List.drop_left, List.take_left,
    hu, hn]
  rw [if_neg hnotlt, wrap64_eq_of_range _ hlo hhi]

/-- Witness for C3 at the two examples of the specification. -/
theorem convertToBytes_unit_multiplier_witness :
    convertToBytes "512MB" = .ok (512 * (1024 * 1024)) ∧
    convertToBytes "2GB" = .ok (2 * (1024 * 1024 * 1024)) := by
  refine ⟨?_, ?_⟩
  · exact convertToBytes_unit_multiplier "512MB" "512".toList "MB".toList (1024 * 1024) 512
      (by decide) (by decide) (by decide) (by decide) (by decide) (by decide) (by decide)
  · exact convertToBytes_unit_multiplier "2GB" "2".toList "GB".toList (1024 * 1024 * 1024) 2
      (by decide) (by decide) (by decide) (by decide) (by decide) (by decide) (by decide)

/-- C5: when the memory string is non-empty and fails to parse, or the
memory step passes (empty or parsed) and the cpuShares string is non-empty
and fails to parse, the deploy fails with that parse error, neither the
container-create nor the container-start engine call is issued, and the
HTTP layer answers 500 with error 1 carrying the underlying message. -/
theorem parse_error_aborts_deploy (env : EngineEnv) (request : DockerRequest)
    (himg : strStartsWith request.image privateDockerRegistry = true)
    (hcfg : env.configLoadErr = none)
    (hpull : env.pullResult = .ok ())
    (e : String)
    (hp : (request.memory ≠ "" ∧ convertToBytes request.memory = .err e) ∨
          ((request.memory = "" ∨ ∃ m, convertToBytes request.memory = .ok m) ∧
           request.cpuShares ≠ "" ∧ goParseInt64 request.cpuShares.toList = .error e)) :
    (startContainer env request).outcome = .fail e ∧
    (∀ nm cc hc, EngineCall.create nm cc hc ∉ (startContainer env request).calls) ∧
    (∀ i, EngineCall.start i ∉ (startContainer env request).calls) ∧
    postHandler env (.ok request) =
      some { status := 500, errorCode := 1, message := e } := by
  have hpr : ∃ l, parseResources request.memory request.cpuShares = .err l e := by
    by_cases hm : request.memory = ""
    · rcases hp with ⟨hne, _⟩ | ⟨_, hne, hparse⟩
      · exact absurd hm hne
      · exact ⟨"[startContainer][CPUShares-Parsing][ERROR] : " ++ e, by
          simp only [parseResources, if_pos hm, parseCPUShares, if_neg hne, hparse]⟩
    · rcases hp with ⟨_, hconv⟩ | ⟨hmem, hne, hparse⟩
      · exact ⟨"[startContainer][Memory-Parsing][ERROR] : " ++ e, by
          simp only [parseResources, if_neg hm, hconv]⟩
      · rcases hmem with hemp | ⟨m, hok⟩
        · exact absurd hemp hm
        · exact ⟨"[startContainer][CPUShares-Parsing][ERROR] : " ++ e, by
            simp only [parseResources, if_neg hm, hok, parseCPUShares, if_neg hne, hparse]⟩
  obtain ⟨l, hpr⟩ := hpr
  have houtcome : (startContainer env request).outcome = .fail e := by
    simp [startContainer, himg, hcfg, hpull, hpr]
  refine ⟨houtcome, ?_, ?_, ?_⟩
  · intro nm cc hc
    cases hb : env.inspectSucceeds <;>
      simp [startContainer, himg, hcfg, hpull, hpr, hb]
  · intro i
    cases hb : env.inspectSucceeds <;>
      simp [startContainer, himg, hcfg, hpull, hpr, hb]
  · simp [postHandler, houtcome]

/-- Witness for C5 at the unparseable memory string "12XB". -/
theorem parse_error_aborts_deploy_witness :
    postHandler envAllOk (.ok { reqSvc1 with memory := "12XB" }) =
      some { status := 500, errorCode := 1, message := "Invalid unit: B" } :=
  (parse_error_aborts_deploy envAllOk { reqSvc1 with memory := "12XB" }
    (by decide) rfl rfl "Invalid unit: B"
    (Or.inl ⟨by decide, by decide⟩)).2.2.2

/-- Environment in which the container exists and both cleanup steps
fail; everything else succeeds. -/
def envCleanupFails : EngineEnv :=
  { envAllOk with
    inspectSucceeds := true
    stopResult := .error "stop failed"
    removeResult := .error "remove failed" }

/-- C2: when the inspect call reports that a container of the requested
name already exists, the deploy issues the stop and then the remove call;
a failure of either step is only logged (the log lines below) and does not
abort the deploy: the create call is still issued, and the run has the
same outcome as it would if both cleanup steps had succeeded. -/
theorem cleanup_is_best_effort (env : EngineEnv) (request : DockerRequest)
    (himg : strStartsWith request.image privateDockerRegistry = true)
    (hcfg : env.configLoadErr = none)
    (hpull : env.pullResult = .ok ())
    (hins : env.inspectSucceeds = true)
    (mem cpu : Option Int)
    (hparse : parseResources request.memory request.cpuShares = .ok mem cpu) :
    EngineCall.stop request.containerName ∈ (startContainer env request).calls ∧
    EngineCall.remove request.containerName ∈ (startContainer env request).calls ∧
    EngineCall.create request.containerName (buildContainerConfig request)
      (buildHostConfig request mem cpu) ∈ (startContainer env request).calls ∧
    (∀ e, env.stopResult = .error e →
      ("[startContainer][ContainerStop][ERROR] : " ++ e) ∈ (startContainer env request).logs) ∧
    (∀ e, env.removeResult = .error e →
      ("[startContainer][ContainerRemove][ERROR] : " ++ e) ∈ (startContainer env request).logs) ∧
    (∃ rest, (startContainer env request).calls =
      .pull request.image env.getAuthConfig.1 :: .inspect request.containerName ::
      .stop request.containerName :: .remove request.containerName ::
      .create request.containerName (buildContainerConfig request)
        (buildHostConfig request mem cpu) :: rest) ∧
    (startContainer env request).outcome =
      (startContainer { env with stopResult := .ok (), removeResult := .ok () } request).outcome := by
  refine ⟨?_, ?_, ?_, ?_, ?_, ?_, ?_⟩
  · cases hcr : env.createResult <;> cases hsr : env.startResult <;>
      simp [startContainer, himg, hcfg, hpull, hins, hparse, hcr, hsr]
  · cases hcr : env.createResult <;> cases hsr : env.startResult <;>
      simp [startContainer, himg, hcfg, hpull, hins, hparse, hcr, hsr]
  · cases hcr : env.createResult <;> cases hsr : env.startResult <;>
      simp [startContainer, himg, hcfg, hpull, hins, hparse, hcr, hsr]
  · intro e he
    cases hcr : env.createResult <;> cases hsr : env.startResult <;>
      simp [startContainer, himg, hcfg, hpull, hins, hparse, hcr, hsr, he]
  · intro e he
    cases hcr : env.createResult <;> cases hsr : env.startResult <;>
      simp [startContainer, himg, hcfg, hpull, hins, hparse, hcr, hsr, he]
  · cases hcr : env.createResult with
    | error e =>
      exact ⟨[], by simp [startContainer, himg, hcfg, hpull, hins, hparse, hcr]⟩
    | ok cid =>
      cases hsr : env.startResult with
      | error e =>
        exact ⟨[.start cid], by simp [startContainer, himg, hcfg, hpull, hins, hparse, hcr, hsr]⟩
      | ok u =>
        exact ⟨[.start cid], by simp [startContainer, himg, hcfg, hpull, hins, hparse, hcr, hsr]⟩
  · cases hcr : env.createResult <;> cases hsr : env.startResult <;>
      simp [startContainer, himg, hcfg, hpull, hins, hparse, hcr, hsr]

/-- Witness for C2: with both cleanup steps failing, the create call is
still issued. -/
theorem cleanup_is_best_effort_witness :
    EngineCall.create "svc1" (buildContainerConfig reqSvc1) (buildHostConfig reqSvc1 none none) ∈
      (startContainer envCleanupFails reqSvc1).calls :=
  (cleanup_is_best_effort envCleanupFails reqSvc1
    (by decide) rfl rfl rfl none none (by decide)).2.2.1

/-- C7 counterexample: in the src/unnamed/part_000 variant a deploy that
reaches the configuration-building step passes to the create call a
host-level configuration carrying the zero-value restart policy (empty
name), not "always": that variant never sets RestartPolicy. -/
theorem restart_policy_not_always_cex :
    EngineCall.create "svc1" (buildContainerConfigV0 reqSvc1V0) (buildHostConfigV0 reqSvc1V0) ∈
      (startContainerV0 envAllOkV0 reqSvc1V0).calls ∧
    (buildHostConfigV0 reqSvc1V0).restartPolicy.name ≠ "always" := by
  decide

/-- C7 (amended): in the src/main.go variant, every deploy that reaches
the configuration-building step passes to the create call a host-level
configuration whose restart policy is "always" (the src/unnamed/part_000
variant never sets a restart policy, so its create call carries the
zero-value policy; see the counterexample). -/
theorem create_config_restart_always (env : EngineEnv) (request : DockerRequest)
    (himg : strStartsWith request.image privateDockerRegistry = true)
    (hcfg : env.configLoadErr = none)
    (hpull : env.pullResult = .ok ())
    (mem cpu : Option Int)
    (hparse : parseResources request.memory request.cpuShares = .ok mem cpu) :
    EngineCall.create request.containerName (buildContainerConfig request)
      (buildHostConfig request mem cpu) ∈ (startContainer env request).calls ∧
    (buildHostConfig request mem cpu).restartPolicy = { name := "always" } := by
  refine ⟨?_, rfl⟩
  cases hins : env.inspectSucceeds <;> cases hcr : env.createResult <;>
    cases hsr : env.startResult <;>
      simp [startContainer, himg, hcfg, hpull, hparse, hins, hcr, hsr]

/-- Witness for C7 at the end-to-end example request. -/
theorem create_config_restart_always_witness :
    EngineCall.create "svc1" (buildContainerConfig reqSvc1) (buildHostConfig reqSvc1 none none) ∈
      (startContainer envAllOk reqSvc1).calls ∧
    (buildHostConfig reqSvc1 none none).restartPolicy = { name := "always" } :=
  create_config_restart_always envAllOk reqSvc1 (by decide) rfl rfl none none (by decide)

/-- Replacing the entry of key k makes lookup of k yield the new value,
provided some entry carries k. -/
theorem assocLookup_map_replace (m : List (String × List NatPortBinding)) (k : String)
    (v : List NatPortBinding) (h : m.any (fun kv => kv.1 = k) = true) :
    assocLookup k (m.map (fun kv => if kv.1 = k then (k, v) else kv)) = some v := by
  induction m with
  | nil => simp at h
  | cons kv m ih =>
    by_cases hk : kv.1 = k
    · simp [assocLookup, hk]
    · have h' : m.any (fun kv => kv.1 = k) = true := by
        simp only [List.any_cons, Bool.or_eq_true, decide_eq_true_eq] at h
        rcases h with h | h
        · exact absurd h hk
        · exact h
      simp [assocLookup, hk, ih h']

/-- Replacing the entry of another key leaves lookup of k unchanged. -/
theorem assocLookup_map_replace_ne (m : List (String × List NatPortBinding))
    (k k' : String) (v : List NatPortBinding) (h : k' ≠ k) :
    assocLookup k (m.map (fun kv => if kv.1 = k' then (k', v) else kv)) =
      assocLookup k m := by
  induction m with
  | nil => rfl
  | cons kv m ih =>
    by_cases hk : kv.1 = k'
    · have hkk : kv.1 ≠ k := by rw [hk]; exact h
      simp [assocLookup, hk, hkk, h, ih]
    · by_cases hkv : kv.1 = k
      · have hk2 : ¬ k = k' := fun he => hk (hkv.trans he)
        simp [assocLookup, hk, hkv, hk2, ih]
      · simp [assocLookup, hk, hkv, ih]

/-- Appending a fresh entry of key k makes lookup of k yield it, provided
no entry of m carries k. -/
theorem assocLookup_append_fresh (m : List (String × List NatPortBinding)) (k : String)
    (v : List NatPortBinding) (h : ∀ kv ∈ m, kv.1 ≠ k) :
    assocLookup k (m ++ [(k, v)]) = some v := by
  induction m with
  | nil => simp [assocLookup]
  | cons kv m ih =>
    have hk : kv.1 ≠ k := h kv (List.mem_cons_self _ _)
    simp only [List.cons_append, assocLookup, if_neg hk]
    exact ih (fun q hq => h q (List.mem_cons_of_mem _ hq))

/-- Appending an entry of another key leaves lookup of k unchanged. -/
theorem assocLookup_append_single_ne (m : List (String × List NatPortBinding))
    (k k' : String) (v : List NatPortBinding) (h : k' ≠ k) :
    assocLookup k (m ++ [(k', v)]) = assocLookup k m := by
  induction m with
  | nil => simp [assocLookup, h]
  | cons kv m ih =>
    by_cases hkv : kv.1 = k <;> simp [assocLookup, hkv, ih]

/-- After the Go map write m[k] = v, lookup of k yields v. -/
theorem assocLookup_assocUpdate_self (m : List (String × List NatPortBinding))
    (k : String) (v : List NatPortBinding) :
    assocLookup k (assocUpdate m k v) = some v := by
  unfold assocUpdate
  split_ifs with hany
  · exact assocLookup_map_replace m k v hany
  · apply assocLookup_append_fresh
    intro kv hkv hk
    have : m.any (fun kv => kv.1 = k) = true := by
      simp only [List.any_eq_true, decide_eq_true_eq]
      exact ⟨kv, hkv, hk⟩
    exact hany this

/-- The Go map write m[k'] = v leaves lookup of a different key k
unchanged. -/
theorem assocLookup_assocUpdate_ne (m : List (String × List NatPortBinding))
    (k k' : String) (v : List NatPortBinding) (h : k' ≠ k) :
    assocLookup k (assocUpdate m k' v) = assocLookup k m := by
  unfold assocUpdate
  split_ifs with hany
  · exact assocLookup_map_replace_ne m k k' v h
  · exact assocLookup_append_single_ne m k k' v h

/-- Folding the port-binding writes over requests that never carry the
container port k leaves lookup of k unchanged. -/
theorem assocLookup_foldl_ne (l : List DockerPortBindingRequest)
    (m : List (String × List NatPortBinding)) (k : String)
    (h : ∀ q ∈ l, q.container ≠ k) :
    assocLookup k (l.foldl (fun m p => assocUpdate m p.container
      [{ hostIP := "0.0.0.0", hostPort := p.host }]) m) = assocLookup k m := by
  induction l generalizing m with
  | nil => rfl
  | cons q l ih =>
    rw [List.foldl_cons, ih _ (fun q' hq' => h q' (List.mem_cons_of_mem _ hq'))]
    exact assocLookup_assocUpdate_ne _ _ _ _ (h q (List.mem_cons_self _ _))

/-- Membership in the exposed-port set insertion. -/
theorem mem_setInsert (s : List String) (k c : String) :
    c ∈ setInsert s k ↔ c ∈ s ∨ c = k := by
  unfold setInsert
  split_ifs with h
  · constructor
    · exact Or.inl
    · rintro (hc | rfl)
      · exact hc
      · exact h
  · simp [List.mem_append]

/-- Membership in the folded exposed-port set. -/
theorem mem_buildExposedPorts_aux (l : List DockerPortBindingRequest) (acc : List String)
    (c : String) :
    c ∈ l.foldl (fun s p => setInsert s p.container) acc ↔
      c ∈ acc ∨ c ∈ l.map DockerPortBindingRequest.container := by
  induction l generalizing acc with
  | nil => simp
  | cons p l ih =>
    rw [List.foldl_cons, ih, mem_setInsert]
    simp only [List.map_cons, List.mem_cons]
    tauto

/-- The request with a duplicated container port used against C8. -/
def reqDupPorts : DockerRequest :=
  { reqSvc1 with
    portBindings := [{ container := "80/tcp", host := "8080" },
                     { container := "80/tcp", host := "9090" }] }

/-- C8 counterexample: with two port bindings for the same container port,
the host-level configuration does not map every binding of the request to
its own host port: the write of the later binding overwrites the earlier
one, so the earlier binding (host port 8080) is not honoured. -/
theorem portBinding_duplicate_cex :
    ¬ ∀ p ∈ reqDupPorts.portBindings,
        assocLookup p.container (buildHostConfig reqDupPorts none none).portBindings =
          some [{ hostIP := "0.0.0.0", hostPort := p.host }] := by
  decide

/-- C8 (amended): for every port binding of the request whose container
port does not recur in a later binding (in particular whenever the
container ports are pairwise distinct), the host-level configuration maps
that container port to exactly one host binding, host IP 0.0.0.0 and the
requested host port; and the container-level exposed-port set contains
exactly the container ports listed in the request. -/
theorem portBindings_last_wins (request : DockerRequest) (mem cpu : Option Int)
    (l₁ l₂ : List DockerPortBindingRequest) (p : DockerPortBindingRequest)
    (hsplit : request.portBindings = l₁ ++ p :: l₂)
    (hlast : ∀ q ∈ l₂, q.container ≠ p.container) :
    assocLookup p.container (buildHostConfig request mem cpu).portBindings =
      some [{ hostIP := "0.0.0.0", hostPort := p.host }] ∧
    ∀ c, c ∈ (buildContainerConfig request).exposedPorts ↔
      c ∈ request.portBindings.map DockerPortBindingRequest.container := by
  have hlen : 0 < request.portBindings.length := by
    rw [hsplit]
    simp
  constructor
  · simp only [buildHostConfig]
    rw [if_pos hlen, hsplit]
    unfold buildPortBindings
    rw [List.foldl_append, List.foldl_cons,
      assocLookup_foldl_ne l₂ _ _ hlast]
    exact assocLookup_assocUpdate_self _ _ _
  · intro c
    simp only [buildContainerConfig]
    rw [if_pos hlen]
    unfold buildExposedPorts
    rw [mem_buildExposedPorts_aux]
    simp

/-- Witness for C8 (amended) at the end-to-end example request. -/
theorem portBindings_last_wins_witness :
    assocLookup "80/tcp" (buildHostConfig reqSvc1 none none).portBindings =
      some [{ hostIP := "0.0.0.0", hostPort := "8080" }] :=
  (portBindings_last_wins reqSvc1 none none [] []
    { container := "80/tcp", host := "8080" } rfl (by simp)).1

end GoDockerDeploy
